import Mathlib

/-!
Verification of pi-retry (src/index.ts): a retry coordinator extension for a
conversational agent runtime.  The extension's five event handlers are embedded
as pure Lean functions over an explicit state record; the JavaScript regular
expressions are embedded as decidable substring / word-boundary / optional-gap
matchers over lowercased character lists, exactly mirroring the three fixed
patterns in the source.
-/

namespace PiRetry

/-! ## Configuration constants (src/index.ts lines 38-48) -/

def MAX_RETRIES : Nat := 3
def BASE_DELAY_MS : Nat := 2000
def RETRY_CUSTOM_TYPE : String := "__retry_trigger"

/-! ## Pattern matchers

The source uses three case-insensitive JavaScript regexes:
  RETRYABLE_PATTERNS      = /\baborted\b/i
  BUILTIN_RETRY_PATTERNS  = /overloaded|rate.?limit|too many requests|429|500|502|503|504|service.?unavailable|server error|internal error|connection.?error|connection.?refused|other side closed|fetch failed|upstream.?connect|reset before headers|terminated|retry delay/i
  user-abort check        = /operation aborted|request was aborted/i
We model case-insensitivity by lowercasing the subject (the pattern literals
are already lowercase), plain alternatives as substring search, `.?` as an
optional single non-newline character, and `\b` as a word boundary
([A-Za-z0-9_] vs not), as in JavaScript. -/

def strLower (s : List Char) : List Char := s.map Char.toLower

/-- `beginsWith pat s`: `pat` occurs at the start of `s`. -/
def beginsWith : List Char → List Char → Bool
  | [], _ => true
  | _ :: _, [] => false
  | p :: ps, c :: cs => p == c && beginsWith ps cs

/-- `hasSub pat s`: `pat` occurs as a contiguous substring of `s`. -/
def hasSub (pat : List Char) : List Char → Bool
  | [] => beginsWith pat []
  | c :: cs => beginsWith pat (c :: cs) || hasSub pat cs

/-- `gapBeginsWith a b s`: regex `a.?b` matches at the start of `s`
(`.` excludes newline, as in JavaScript without the `s` flag). -/
def gapBeginsWith (a b : List Char) (s : List Char) : Bool :=
  beginsWith a s &&
    (beginsWith b (s.drop a.length) ||
      (match s.drop a.length with
       | [] => false
       | c :: cs => !(c == '\n') && beginsWith b cs))

/-- `hasGapSub a b s`: regex `a.?b` matches somewhere in `s`. -/
def hasGapSub (a b : List Char) : List Char → Bool
  | [] => gapBeginsWith a b []
  | c :: cs => gapBeginsWith a b (c :: cs) || hasGapSub a b cs

/-- JavaScript `\w`: ASCII letter, digit or underscore. -/
def isWordChar (c : Char) : Bool := c.isAlphanum || c == '_'

/-- `hasWordSub pat pre s`: `\bpat\b` matches in `s`, where `pre` is the
character immediately before `s` (`none` at the start of the subject).
Correct for patterns made of word characters, as "aborted" is. -/
def hasWordSub (pat : List Char) : Option Char → List Char → Bool
  | pre, s =>
    ((match pre with
      | none => true
      | some c => !isWordChar c) &&
     beginsWith pat s &&
     (match s.drop pat.length with
      | [] => true
      | c :: _ => !isWordChar c)) ||
    (match s with
     | [] => false
     | c :: cs => hasWordSub pat (some c) cs)

/-- RETRYABLE_PATTERNS (src line 44): /\baborted\b/i. -/
def RETRYABLE_PATTERNS (s : String) : Bool :=
  hasWordSub "aborted".data none (strLower s.data)

/-- BUILTIN_RETRY_PATTERNS (src lines 47-48). -/
def BUILTIN_RETRY_PATTERNS (s : String) : Bool :=
  let t := strLower s.data
  hasSub "overloaded".data t ||
  hasGapSub "rate".data "limit".data t ||
  hasSub "too many requests".data t ||
  hasSub "429".data t ||
  hasSub "500".data t ||
  hasSub "502".data t ||
  hasSub "503".data t ||
  hasSub "504".data t ||
  hasGapSub "service".data "unavailable".data t ||
  hasSub "server error".data t ||
  hasSub "internal error".data t ||
  hasGapSub "connection".data "error".data t ||
  hasGapSub "connection".data "refused".data t ||
  hasSub "other side closed".data t ||
  hasSub "fetch failed".data t ||
  hasGapSub "upstream".data "connect".data t ||
  hasSub "reset before headers".data t ||
  hasSub "terminated".data t ||
  hasSub "retry delay".data t

/-- User-initiated-abort check (src line 164): /operation aborted|request was aborted/i. -/
def USER_ABORT_PATTERNS (s : String) : Bool :=
  let t := strLower s.data
  hasSub "operation aborted".data t || hasSub "request was aborted".data t

/-! ## Data model -/

/-- A conversation message as the handlers observe it: role, stop-reason,
optional error text, optional custom type tag. -/
structure Msg where
  role : String
  stopReason : String
  errorMessage : Option String
  customType : Option String
deriving DecidableEq, Repr

/-- The extension's process-local mutable state (src lines 89-98). -/
structure RetryState where
  retryAttempt : Nat
  lastErrorMessage : String
  lastStopReason : String
  lastResponseWasError : Bool
  pendingRetryCleanup : Bool
deriving DecidableEq, Repr

inductive LogEvent where
  | retry
  | retry_exhausted
  | retry_succeeded
  | manual_retry
deriving DecidableEq, Repr

/-- One audit log record (src RetryLogEntry), restricted to the fields the
extension computes itself; environment-supplied fields (timestamp, model
identity, cwd, session id) are outside the embedding. -/
structure RetryLogEntry where
  event : LogEvent
  stopReason : Option String
  errorMessage : Option String
  attempt : Nat
  maxRetries : Nat
  delayMs : Option Nat
deriving DecidableEq, Repr

inductive Severity where
  | info
  | warning
  | error
deriving DecidableEq, Repr

structure Notification where
  text : String
  severity : Severity
deriving DecidableEq, Repr

/-- The observable effects a handler performs: log records appended,
notifications shown, `setStatus` calls (in order; `none` clears the status
line), whether a retry trigger message was sent, and the backoff wait. -/
structure HandlerOut where
  logs : List RetryLogEntry
  notifications : List Notification
  statusUpdates : List (Option String)
  triggerSent : Bool
  waitedMs : Option Nat
deriving DecidableEq, Repr

def HandlerOut.empty : HandlerOut :=
  { logs := [], notifications := [], statusUpdates := [], triggerSent := false,
    waitedMs := none }

/-! ## Handlers -/

/-- Scan from the end of the run's messages for the last assistant message
(src lines 144-150). -/
def findLastAssistant : List Msg → Option Msg
  | [] => none
  | m :: rest =>
    match findLastAssistant rest with
    | some a => some a
    | none => if m.role = "assistant" then some m else none

/-- Status-line text shown while waiting (src lines 230-233); `toFixed(0)` is
modelled by exact natural division, which agrees on every delay the code
produces. -/
def retryStatusText (errorMessage : String) (attempt delayMs : Nat) : String :=
  "Stream error \"" ++ errorMessage ++ "\", retrying (" ++ toString attempt ++
    "/" ++ toString MAX_RETRIES ++ ") in " ++ toString (delayMs / 1000) ++ "s…"

/-- Exhaustion notification text (src lines 200-203). -/
def exhaustedText (errorMessage : String) : String :=
  "Stream error persisted after " ++ toString MAX_RETRIES ++ " retries: " ++
    errorMessage

/-- The `agent_end` handler (src lines 142-239). -/
def agentEnd (st : RetryState) (messages : List Msg) : RetryState × HandlerOut :=
  match findLastAssistant messages with
  | none => (st, HandlerOut.empty)
  | some lastAssistant =>
    let stopReason := lastAssistant.stopReason
    let errorMessage := lastAssistant.errorMessage.getD ""
    let st1 :=
      if stopReason = "error" ∨ stopReason = "aborted" then
        { st with lastResponseWasError := true }
      else st
    if stopReason = "aborted" ∧ USER_ABORT_PATTERNS errorMessage = true then
      (st1, HandlerOut.empty)
    else if ¬ (stopReason = "error" ∨ stopReason = "aborted") then
      (st1, HandlerOut.empty)
    else if BUILTIN_RETRY_PATTERNS errorMessage = true then
      (st1, HandlerOut.empty)
    else if ¬ RETRYABLE_PATTERNS errorMessage = true then
      (st1, HandlerOut.empty)
    else
      let attempt := st1.retryAttempt + 1
      let st2 := { st1 with retryAttempt := attempt,
                            lastErrorMessage := errorMessage,
                            lastStopReason := stopReason }
      if attempt > MAX_RETRIES then
        ({ st2 with retryAttempt := 0, lastErrorMessage := "",
                    lastStopReason := "" },
         { logs := [{ event := LogEvent.retry_exhausted,
                      stopReason := some stopReason,
                      errorMessage := some errorMessage,
                      attempt := attempt - 1,
                      maxRetries := MAX_RETRIES,
                      delayMs := none }],
           notifications := [{ text := exhaustedText errorMessage,
                               severity := Severity.error }],
           statusUpdates := [none],
           triggerSent := false,
           waitedMs := none })
      else
        let delayMs := BASE_DELAY_MS * 2 ^ (attempt - 1)
        ({ st2 with pendingRetryCleanup := true },
         { logs := [{ event := LogEvent.retry,
                      stopReason := some stopReason,
                      errorMessage := some errorMessage,
                      attempt := attempt,
                      maxRetries := MAX_RETRIES,
                      delayMs := some delayMs }],
           notifications := [],
           statusUpdates := [some (retryStatusText errorMessage attempt delayMs),
                             none],
           triggerSent := true,
           waitedMs := some delayMs })

/-- The `turn_end` handler (src lines 103-137). -/
def turnEnd (st : RetryState) (m : Msg) : RetryState × HandlerOut :=
  if m.role = "assistant" ∧ m.stopReason ≠ "error" ∧ m.stopReason ≠ "aborted" then
    let st1 := { st with lastResponseWasError := false }
    if st1.retryAttempt > 0 then
      ({ st1 with retryAttempt := 0, lastErrorMessage := "",
                  lastStopReason := "" },
       { logs := [{ event := LogEvent.retry_succeeded,
                    stopReason := some st.lastStopReason,
                    errorMessage := some st.lastErrorMessage,
                    attempt := st.retryAttempt,
                    maxRetries := MAX_RETRIES,
                    delayMs := none }],
         notifications := [{ text := "Retry succeeded on attempt " ++
                               toString st.retryAttempt ++ ".",
                             severity := Severity.info }],
         statusUpdates := [none],
         triggerSent := false,
         waitedMs := none })
    else (st1, HandlerOut.empty)
  else (st, HandlerOut.empty)

/-- The log record both manual-retry surfaces write (src lines 258-270, 290-302):
no stop-reason or error text, attempt 1 of 1. -/
def manualRetryEntry : RetryLogEntry :=
  { event := LogEvent.manual_retry, stopReason := none, errorMessage := none,
    attempt := 1, maxRetries := 1, delayMs := none }

/-- The `/retry` command handler (src lines 244-274). -/
def retryCommand (st : RetryState) (isIdle : Bool) : RetryState × HandlerOut :=
  if isIdle = false then
    (st, { logs := [],
           notifications := [{ text := "Agent is still running.",
                               severity := Severity.warning }],
           statusUpdates := [], triggerSent := false, waitedMs := none })
  else if st.lastResponseWasError = false then
    (st, { logs := [],
           notifications := [{ text := "Nothing to retry — last response completed successfully.",
                               severity := Severity.warning }],
           statusUpdates := [], triggerSent := false, waitedMs := none })
  else
    ({ st with pendingRetryCleanup := true },
     { logs := [manualRetryEntry], notifications := [], statusUpdates := [],
       triggerSent := true, waitedMs := none })

/-- JavaScript String.prototype.trim over the decoded characters: drop
whitespace from both ends.  Written structurally so it evaluates inside the
kernel; agrees with the runtime's trim on the whitespace classes both share. -/
def trimChars (s : List Char) : List Char :=
  ((s.dropWhile Char.isWhitespace).reverse.dropWhile Char.isWhitespace).reverse

/-- The terminal-input interceptor registered on `session_start`
(src lines 282-307).  Returns the new state, the effects, and whether the key
event was consumed.  The source's emptiness test is
getEditorText().trim() !== "", embedded as the trimmed character list being
nonempty. -/
def onTerminalInput (st : RetryState) (isEnterKey isIdle : Bool)
    (editorText : String) : RetryState × HandlerOut × Bool :=
  if isEnterKey = false then (st, HandlerOut.empty, false)
  else if st.lastResponseWasError = false then (st, HandlerOut.empty, false)
  else if isIdle = false then (st, HandlerOut.empty, false)
  else if ¬ trimChars editorText.data = [] then (st, HandlerOut.empty, false)
  else
    ({ st with pendingRetryCleanup := true },
     { logs := [manualRetryEntry], notifications := [], statusUpdates := [],
       triggerSent := true, waitedMs := none },
     true)

/-- A message is the extension's hidden retry marker (src lines 318-323). -/
def isRetryMarker (m : Msg) : Bool :=
  m.role == "custom" && m.customType == some RETRY_CUSTOM_TYPE

/-- The `context` handler (src lines 314-326).  Returns `none` when the host
should keep the message list unchanged (the handler returns `undefined`). -/
def contextHandler (st : RetryState) (messages : List Msg) :
    RetryState × Option (List Msg) :=
  if st.pendingRetryCleanup = false then (st, none)
  else
    ({ st with pendingRetryCleanup := false },
     some (messages.filter (fun m => !isRetryMarker m)))

/-- `triggerRetry` (src lines 331-341): set the cleanup flag, then send the
hidden marker message (which the host records with role "custom"). -/
def triggerRetry (st : RetryState) : RetryState × Msg :=
  ({ st with pendingRetryCleanup := true },
   { role := "custom", stopReason := "", errorMessage := none,
     customType := some RETRY_CUSTOM_TYPE })

end PiRetry
namespace PiRetry

/-! ## Sample states and messages used by the concrete witnesses -/

/-- Fresh state: no active episode, last turn succeeded. -/
def stIdle : RetryState :=
  { retryAttempt := 0, lastErrorMessage := "", lastStopReason := "",
    lastResponseWasError := false, pendingRetryCleanup := false }

/-- No active episode, but the last turn failed (manual retry available). -/
def stFailed : RetryState :=
  { retryAttempt := 0, lastErrorMessage := "", lastStopReason := "",
    lastResponseWasError := true, pendingRetryCleanup := false }

/-- Mid-episode state after one auto-retry. -/
def stRetrying1 : RetryState :=
  { retryAttempt := 1, lastErrorMessage := "upstream aborted connection",
    lastStopReason := "aborted", lastResponseWasError := true,
    pendingRetryCleanup := false }

/-- State after three consecutive auto-retries: the attempt ceiling. -/
def stRetrying3 : RetryState :=
  { retryAttempt := 3, lastErrorMessage := "upstream aborted connection",
    lastStopReason := "aborted", lastResponseWasError := true,
    pendingRetryCleanup := false }

/-- Error text matching both the host-covered and the auto-retryable pattern. -/
def msgBuiltin : Msg :=
  { role := "assistant", stopReason := "error",
    errorMessage := some "rate limit exceeded; aborted", customType := none }

/-- Auto-retryable abort not covered by the host and not user-initiated. -/
def msgAborted : Msg :=
  { role := "assistant", stopReason := "aborted",
    errorMessage := some "upstream aborted connection", customType := none }

/-- A user-initiated cancellation. -/
def msgUserAbort : Msg :=
  { role := "assistant", stopReason := "aborted",
    errorMessage := some "The operation aborted", customType := none }

/-- A normally completed assistant turn. -/
def msgNormal : Msg :=
  { role := "assistant", stopReason := "stop", errorMessage := none,
    customType := none }

/-- An ordinary user message. -/
def userMsg : Msg :=
  { role := "user", stopReason := "", errorMessage := none, customType := none }

/-- The hidden retry marker as it appears in history. -/
def markerMsg : Msg :=
  { role := "custom", stopReason := "", errorMessage := none,
    customType := some "__retry_trigger" }

/-! ## Claim theorems -/

/-- C3: for every agent_end whose last assistant message has stop-reason
"aborted" and an error text matching a user-cancellation phrase, no auto-retry
fires — the handler only sets the last-turn-failed flag (so manual retry
remains available), changes nothing else, writes no log record and sends no
trigger. -/
theorem user_abort_ignored (st : RetryState) (ms : List Msg) (m : Msg)
    (hm : findLastAssistant ms = some m)
    (hs : m.stopReason = "aborted")
    (hu : USER_ABORT_PATTERNS (m.errorMessage.getD "") = true) :
    agentEnd st ms = ({ st with lastResponseWasError := true }, HandlerOut.empty) := by
  simp [agentEnd, hm, hs, hu]

/-- Witness for C3 at a concrete user-cancellation message. -/
theorem user_abort_ignored_witness :
    agentEnd stIdle [msgUserAbort]
      = ({ stIdle with lastResponseWasError := true }, HandlerOut.empty) :=
  user_abort_ignored stIdle [msgUserAbort] msgUserAbort (by decide) rfl (by decide)

/-- C1: the deferred (host-covered) pattern check takes precedence over the
auto-retryable check — whenever the last assistant message's stop-reason is
error or aborted and its error text matches a host-covered pattern, no
auto-retry is entered: the attempt count is unchanged, no trigger is sent and
no log record is written, even if the text also matches the auto-retryable
pattern (nothing is assumed about it here). -/
theorem deferred_precedence (st : RetryState) (ms : List Msg) (m : Msg)
    (hm : findLastAssistant ms = some m)
    (hs : m.stopReason = "error" ∨ m.stopReason = "aborted")
    (hb : BUILTIN_RETRY_PATTERNS (m.errorMessage.getD "") = true) :
    (agentEnd st ms).1.retryAttempt = st.retryAttempt ∧
    (agentEnd st ms).2.triggerSent = false ∧
    (agentEnd st ms).2.logs = [] := by
  have key : agentEnd st ms
      = ({ st with lastResponseWasError := true }, HandlerOut.empty) := by
    rcases hs with hs | hs
    · simp [agentEnd, hm, hs, hb]
    · by_cases hu : USER_ABORT_PATTERNS (m.errorMessage.getD "") = true
      · simp [agentEnd, hm, hs, hu]
      · simp [agentEnd, hm, hs, hb, hu]
  rw [key]
  exact ⟨rfl, rfl, rfl⟩

/-- Witness for C1 at an error text matching both the host-covered pattern
("rate limit") and the auto-retryable pattern ("aborted"). -/
theorem deferred_precedence_witness :
    (agentEnd stIdle [msgBuiltin]).1.retryAttempt = stIdle.retryAttempt ∧
    (agentEnd stIdle [msgBuiltin]).2.triggerSent = false ∧
    (agentEnd stIdle [msgBuiltin]).2.logs = [] :=
  deferred_precedence stIdle [msgBuiltin] msgBuiltin (by decide) (Or.inl rfl)
    (by decide)

/-- C2: attempt ceiling — from attemptCount = MAX_RETRIES (3), a fourth
auto-retryable failure does not retry further: no trigger is sent, exactly one
retry_exhausted record is written with attempt = 3, an error notification is
emitted, the status line is cleared, and the episode resets to idle
(attemptCount 0, stored error text and stop-reason cleared). -/
theorem attempt_ceiling (st : RetryState) (ms : List Msg) (m : Msg)
    (hm : findLastAssistant ms = some m)
    (h3 : st.retryAttempt = 3)
    (hs : m.stopReason = "error" ∨ m.stopReason = "aborted")
    (hu : ¬ (m.stopReason = "aborted" ∧
        USER_ABORT_PATTERNS (m.errorMessage.getD "") = true))
    (hb : BUILTIN_RETRY_PATTERNS (m.errorMessage.getD "") = false)
    (hr : RETRYABLE_PATTERNS (m.errorMessage.getD "") = true) :
    agentEnd st ms =
      ({ st with retryAttempt := 0, lastErrorMessage := "", lastStopReason := "",
                 lastResponseWasError := true },
       { logs := [{ event := LogEvent.retry_exhausted,
                    stopReason := some m.stopReason,
                    errorMessage := some (m.errorMessage.getD ""),
                    attempt := 3, maxRetries := 3, delayMs := none }],
         notifications := [{ text := exhaustedText (m.errorMessage.getD ""),
                             severity := Severity.error }],
         statusUpdates := [none], triggerSent := false, waitedMs := none }) := by
  rcases hs with hs | hs
  · simp [agentEnd, hm, hs, hb, hr, h3, MAX_RETRIES]
  · simp only [hs] at hu
    simp at hu
    simp [agentEnd, hm, hs, hb, hr, h3, hu, MAX_RETRIES]

/-- Witness for C2: a fourth consecutive auto-retryable abort at the ceiling. -/
theorem attempt_ceiling_witness :
    agentEnd stRetrying3 [msgAborted] =
      ({ stRetrying3 with
          retryAttempt := 0, lastErrorMessage := "", lastStopReason := "",
          lastResponseWasError := true },
       { logs := [{ event := LogEvent.retry_exhausted,
                    stopReason := some msgAborted.stopReason,
                    errorMessage := some (msgAborted.errorMessage.getD ""),
                    attempt := 3, maxRetries := 3, delayMs := none }],
         notifications := [{ text := exhaustedText (msgAborted.errorMessage.getD ""),
                             severity := Severity.error }],
         statusUpdates := [none], triggerSent := false, waitedMs := none }) :=
  attempt_ceiling stRetrying3 [msgAborted] msgAborted (by decide) rfl (Or.inr rfl)
    (by decide) (by decide) (by decide)

/-- Shared characterization of the non-exhausted auto-retry branch of
agentEnd: when the last assistant message is auto-retryable (error/aborted,
not user-initiated, not host-covered, matching the retryable pattern) and the
incremented attempt stays within the ceiling, a retry fires with the
exponential-backoff delay, one retry log record, the status messages and the
trigger. -/
theorem agentEnd_fires (st : RetryState) (ms : List Msg) (m : Msg)
    (hm : findLastAssistant ms = some m)
    (hs : m.stopReason = "error" ∨ m.stopReason = "aborted")
    (hu : ¬ (m.stopReason = "aborted" ∧
        USER_ABORT_PATTERNS (m.errorMessage.getD "") = true))
    (hb : BUILTIN_RETRY_PATTERNS (m.errorMessage.getD "") = false)
    (hr : RETRYABLE_PATTERNS (m.errorMessage.getD "") = true)
    (hn : st.retryAttempt + 1 ≤ MAX_RETRIES) :
    agentEnd st ms =
      ({ st with retryAttempt := st.retryAttempt + 1,
                 lastErrorMessage := m.errorMessage.getD "",
                 lastStopReason := m.stopReason,
                 lastResponseWasError := true,
                 pendingRetryCleanup := true },
       { logs := [{ event := LogEvent.retry,
                    stopReason := some m.stopReason,
                    errorMessage := some (m.errorMessage.getD ""),
                    attempt := st.retryAttempt + 1, maxRetries := MAX_RETRIES,
                    delayMs := some (BASE_DELAY_MS * 2 ^ st.retryAttempt) }],
         notifications := [],
         statusUpdates := [some (retryStatusText (m.errorMessage.getD "")
                             (st.retryAttempt + 1)
                             (BASE_DELAY_MS * 2 ^ st.retryAttempt)),
                           none],
         triggerSent := true,
         waitedMs := some (BASE_DELAY_MS * 2 ^ st.retryAttempt) }) := by
  have hn' : ¬ st.retryAttempt + 1 > MAX_RETRIES := by omega
  rcases hs with hs | hs
  · simp [agentEnd, hm, hs, hb, hr, hn']
  · simp only [hs] at hu
    simp at hu
    simp [agentEnd, hm, hs, hb, hr, hu, hn']

/-- C7: for every attempt number N = attemptCount + 1 within the ceiling, the
backoff wait equals BASE_DELAY_MS * 2 ^ (N - 1) exactly, the same value is the
delayMs recorded in the (single) retry log record, and with the default base
of 2000ms attempts 1, 2, 3 give 2000ms, 4000ms, 8000ms. -/
theorem backoff_delay (st : RetryState) (ms : List Msg) (m : Msg)
    (hm : findLastAssistant ms = some m)
    (hs : m.stopReason = "error" ∨ m.stopReason = "aborted")
    (hu : ¬ (m.stopReason = "aborted" ∧
        USER_ABORT_PATTERNS (m.errorMessage.getD "") = true))
    (hb : BUILTIN_RETRY_PATTERNS (m.errorMessage.getD "") = false)
    (hr : RETRYABLE_PATTERNS (m.errorMessage.getD "") = true)
    (hn : st.retryAttempt + 1 ≤ MAX_RETRIES) :
    (agentEnd st ms).2.waitedMs
        = some (BASE_DELAY_MS * 2 ^ (st.retryAttempt + 1 - 1)) ∧
    (agentEnd st ms).2.logs.map RetryLogEntry.delayMs
        = [some (BASE_DELAY_MS * 2 ^ (st.retryAttempt + 1 - 1))] ∧
    BASE_DELAY_MS * 2 ^ (1 - 1) = 2000 ∧
    BASE_DELAY_MS * 2 ^ (2 - 1) = 4000 ∧
    BASE_DELAY_MS * 2 ^ (3 - 1) = 8000 := by
  rw [agentEnd_fires st ms m hm hs hu hb hr hn]
  exact ⟨rfl, rfl, by decide, by decide, by decide⟩

/-- Witness for C7: the second attempt waits 4000ms. -/
theorem backoff_delay_witness :
    (agentEnd stRetrying1 [msgAborted]).2.waitedMs = some 4000 := by
  have h := backoff_delay stRetrying1 [msgAborted] msgAborted (by decide)
    (Or.inr rfl) (by decide) (by decide) (by decide) (by decide)
  simpa [stRetrying1, BASE_DELAY_MS] using h.1

/-- C6: on every turn_end of an assistant message whose stop-reason is neither
"error" nor "aborted", the last-turn-failed flag becomes false; if
attemptCount > 0 (and only then) one retry_succeeded record is written with
the attempt number at which success occurred, an informational notification
naming that attempt number is shown, the status line is cleared and the
episode resets to idle; with attemptCount = 0 nothing else happens. -/
theorem turn_end_success (st : RetryState) (m : Msg)
    (hrole : m.role = "assistant")
    (hs1 : m.stopReason ≠ "error") (hs2 : m.stopReason ≠ "aborted") :
    (turnEnd st m).1.lastResponseWasError = false ∧
    (0 < st.retryAttempt →
      turnEnd st m =
        ({ st with retryAttempt := 0, lastErrorMessage := "",
                   lastStopReason := "", lastResponseWasError := false },
         { logs := [{ event := LogEvent.retry_succeeded,
                      stopReason := some st.lastStopReason,
                      errorMessage := some st.lastErrorMessage,
                      attempt := st.retryAttempt, maxRetries := MAX_RETRIES,
                      delayMs := none }],
           notifications := [{ text := "Retry succeeded on attempt " ++
                                 toString st.retryAttempt ++ ".",
                               severity := Severity.info }],
           statusUpdates := [none], triggerSent := false, waitedMs := none })) ∧
    (st.retryAttempt = 0 →
      turnEnd st m = ({ st with lastResponseWasError := false }, HandlerOut.empty)) := by
  by_cases h0 : 0 < st.retryAttempt
  · refine ⟨by simp [turnEnd, hrole, hs1, hs2, h0], ?_, ?_⟩
    · intro _
      simp [turnEnd, hrole, hs1, hs2, h0]
    · intro hz
      omega
  · have hz : st.retryAttempt = 0 := by omega
    refine ⟨by simp [turnEnd, hrole, hs1, hs2, hz], ?_, ?_⟩
    · intro hcontra
      omega
    · intro _
      simp [turnEnd, hrole, hs1, hs2, hz]

/-- Witness for C6: a normal turn after one retry logs retry_succeeded with
attempt 1 and resets the episode. -/
theorem turn_end_success_witness :
    turnEnd stRetrying1 msgNormal =
      ({ stRetrying1 with
          retryAttempt := 0, lastErrorMessage := "", lastStopReason := "",
          lastResponseWasError := false },
       { logs := [{ event := LogEvent.retry_succeeded,
                    stopReason := some stRetrying1.lastStopReason,
                    errorMessage := some stRetrying1.lastErrorMessage,
                    attempt := stRetrying1.retryAttempt, maxRetries := MAX_RETRIES,
                    delayMs := none }],
         notifications := [{ text := "Retry succeeded on attempt " ++
                               toString stRetrying1.retryAttempt ++ ".",
                             severity := Severity.info }],
         statusUpdates := [none], triggerSent := false, waitedMs := none }) :=
  (turn_end_success stRetrying1 msgNormal rfl (by decide) (by decide)).2.1
    (by decide)

/-- C8: the manual /retry command gate — if the agent is busy, only the
"still running" warning is produced, with no trigger and no log record; if the
agent is idle but the last turn succeeded, only the (textually different)
"nothing to retry" warning, again with no trigger and no log record; if the
agent is idle and the last turn failed, one manual_retry record is written and
the trigger is sent. -/
theorem retry_command_gate (st : RetryState) :
    retryCommand st false =
      (st, { logs := [],
             notifications := [{ text := "Agent is still running.",
                                 severity := Severity.warning }],
             statusUpdates := [], triggerSent := false, waitedMs := none }) ∧
    (st.lastResponseWasError = false →
      retryCommand st true =
        (st, { logs := [],
               notifications := [{ text := "Nothing to retry — last response completed successfully.",
                                   severity := Severity.warning }],
               statusUpdates := [], triggerSent := false, waitedMs := none })) ∧
    (st.lastResponseWasError = true →
      retryCommand st true =
        ({ st with pendingRetryCleanup := true },
         { logs := [manualRetryEntry], notifications := [], statusUpdates := [],
           triggerSent := true, waitedMs := none })) ∧
    "Agent is still running." ≠ "Nothing to retry — last response completed successfully." := by
  refine ⟨by simp [retryCommand], ?_, ?_, by decide⟩
  · intro h
    simp [retryCommand, h]
  · intro h
    simp [retryCommand, h]

/-- Witness for C8: idle agent, failed last turn — the command logs and
triggers. -/
theorem retry_command_gate_witness :
    retryCommand stFailed true =
      ({ stFailed with pendingRetryCleanup := true },
       { logs := [manualRetryEntry], notifications := [], statusUpdates := [],
         triggerSent := true, waitedMs := none }) :=
  (retry_command_gate stFailed).2.2.1 rfl

/-- C5: the Enter-key interceptor short-circuits — a wrong key, a non-empty
(after trim) editor text, or a failing gate (agent busy or last turn
succeeded) each yield no interception, no consumption, no log and no trigger;
the key event is consumed exactly when the full gate passes, and then one
manual_retry record is logged and the retry trigger is sent. -/
theorem enter_gate_order (st : RetryState) (isEnterKey isIdle : Bool)
    (text : String) :
    (isEnterKey = false →
      onTerminalInput st isEnterKey isIdle text = (st, HandlerOut.empty, false)) ∧
    (¬ trimChars text.data = [] →
      onTerminalInput st isEnterKey isIdle text = (st, HandlerOut.empty, false)) ∧
    (st.lastResponseWasError = false ∨ isIdle = false →
      onTerminalInput st isEnterKey isIdle text = (st, HandlerOut.empty, false)) ∧
    ((onTerminalInput st isEnterKey isIdle text).2.2 = true ↔
      isEnterKey = true ∧ st.lastResponseWasError = true ∧ isIdle = true ∧
        trimChars text.data = []) ∧
    ((onTerminalInput st isEnterKey isIdle text).2.2 = true →
      onTerminalInput st isEnterKey isIdle text =
        ({ st with pendingRetryCleanup := true },
         { logs := [manualRetryEntry], notifications := [], statusUpdates := [],
           triggerSent := true, waitedMs := none }, true)) := by
  cases isEnterKey <;> cases isIdle <;>
    cases hE : st.lastResponseWasError <;>
    by_cases ht : trimChars text.data = [] <;>
    simp [onTerminalInput, hE, ht]

/-- Witness for C5: Enter on a whitespace-only editor with an idle agent and a
failed last turn is consumed, logged and triggers a retry. -/
theorem enter_gate_order_witness :
    onTerminalInput stFailed true true "  " =
      ({ stFailed with pendingRetryCleanup := true },
       { logs := [manualRetryEntry], notifications := [], statusUpdates := [],
         triggerSent := true, waitedMs := none }, true) :=
  (enter_gate_order stFailed true true "  ").2.2.2.2 (by decide)

/-- Helper: a filter and its complementary filter partition the list's
length. -/
theorem filter_length_partition {α : Type} (p : α → Bool) (l : List α) :
    (l.filter p).length + (l.filter (fun a => !p a)).length = l.length := by
  induction l with
  | nil => rfl
  | cons a t ih =>
    by_cases h : p a = true <;> simp [List.filter, h] <;> omega

/-- C4: context scrubbing is flag-gated and idempotent — a retry trigger sets
the pending flag before sending; the very next context pass filters by the
private marker type (wherever the markers sit), hence removes exactly one
message when exactly one marker is present, and clears the flag; a second
consecutive pass with no new trigger is a no-op that leaves both the state and
the message list unchanged. -/
theorem scrub_once_then_noop (st : RetryState) (ms ms2 : List Msg)
    (h1 : (ms.filter (fun m => isRetryMarker m)).length = 1) :
    (triggerRetry st).1.pendingRetryCleanup = true ∧
    (contextHandler (triggerRetry st).1 ms).1.pendingRetryCleanup = false ∧
    (contextHandler (triggerRetry st).1 ms).2
        = some (ms.filter (fun m => !isRetryMarker m)) ∧
    (ms.filter (fun m => !isRetryMarker m)).length = ms.length - 1 ∧
    contextHandler (contextHandler (triggerRetry st).1 ms).1 ms2
        = ((contextHandler (triggerRetry st).1 ms).1, none) := by
  have hp := filter_length_partition (fun m => isRetryMarker m) ms
  refine ⟨rfl, ?_, ?_, ?_, ?_⟩
  · simp [contextHandler, triggerRetry]
  · simp [contextHandler, triggerRetry]
  · omega
  · simp [contextHandler, triggerRetry]

/-- Witness for C4 on a two-message history whose marker is not in last
position's mirror image (marker last, user message first). -/
theorem scrub_once_then_noop_witness :
    (triggerRetry stIdle).1.pendingRetryCleanup = true ∧
    (contextHandler (triggerRetry stIdle).1 [userMsg, markerMsg]).1.pendingRetryCleanup
        = false ∧
    (contextHandler (triggerRetry stIdle).1 [userMsg, markerMsg]).2
        = some (List.filter (fun m => !isRetryMarker m) [userMsg, markerMsg]) ∧
    (List.filter (fun m => !isRetryMarker m) [userMsg, markerMsg]).length
        = (List.length [userMsg, markerMsg]) - 1 ∧
    contextHandler
        (contextHandler (triggerRetry stIdle).1 [userMsg, markerMsg]).1 [userMsg]
        = ((contextHandler (triggerRetry stIdle).1 [userMsg, markerMsg]).1, none) :=
  scrub_once_then_noop stIdle [userMsg, markerMsg] [userMsg] (by decide)

/-- C9: invariant — if attemptCount is within [0, MAX_RETRIES] before an
event, it is again within [0, MAX_RETRIES] after each of the five handlers
returns; moreover from the ceiling an agent_end either leaves the count
unchanged or resets it to 0, so MAX_RETRIES + 1 is only ever transient inside
the handler. -/
theorem attempt_count_invariant (st : RetryState)
    (h : st.retryAttempt ≤ MAX_RETRIES)
    (ms ms2 : List Msg) (m : Msg) (bIdle bKey bIdle2 : Bool) (text : String) :
    (agentEnd st ms).1.retryAttempt ≤ MAX_RETRIES ∧
    (turnEnd st m).1.retryAttempt ≤ MAX_RETRIES ∧
    (retryCommand st bIdle).1.retryAttempt ≤ MAX_RETRIES ∧
    (onTerminalInput st bKey bIdle2 text).1.retryAttempt ≤ MAX_RETRIES ∧
    (contextHandler st ms2).1.retryAttempt ≤ MAX_RETRIES ∧
    (st.retryAttempt = MAX_RETRIES →
      (agentEnd st ms).1.retryAttempt = 0 ∨
      (agentEnd st ms).1.retryAttempt = st.retryAttempt) := by
  have hA : (agentEnd st ms).1.retryAttempt = 0 ∨
      (agentEnd st ms).1.retryAttempt = st.retryAttempt ∨
      ((agentEnd st ms).1.retryAttempt = st.retryAttempt + 1 ∧
        st.retryAttempt + 1 ≤ MAX_RETRIES) := by
    cases hfa : findLastAssistant ms with
    | none => simp [agentEnd, hfa]
    | some m' =>
      by_cases h2 : m'.stopReason = "aborted" ∧
          USER_ABORT_PATTERNS (m'.errorMessage.getD "") = true <;>
      by_cases h1 : m'.stopReason = "error" ∨ m'.stopReason = "aborted" <;>
      by_cases h3 : BUILTIN_RETRY_PATTERNS (m'.errorMessage.getD "") = true <;>
      by_cases h4 : RETRYABLE_PATTERNS (m'.errorMessage.getD "") = true <;>
      by_cases h5 : st.retryAttempt + 1 > MAX_RETRIES <;>
      simp [agentEnd, hfa, h1, h2, h3, h4, h5] <;> omega
  refine ⟨by omega, ?_, ?_, ?_, ?_, by omega⟩
  · by_cases hc : m.role = "assistant" ∧ m.stopReason ≠ "error" ∧
        m.stopReason ≠ "aborted" <;>
    by_cases h0 : 0 < st.retryAttempt <;>
    simp [turnEnd, hc, h0] <;> omega
  · cases bIdle <;> cases hE : st.lastResponseWasError <;>
      simp [retryCommand, hE] <;> omega
  · cases bKey <;> cases bIdle2 <;> cases hE : st.lastResponseWasError <;>
      by_cases ht : trimChars text.data = [] <;>
      simp [onTerminalInput, hE, ht] <;> omega
  · cases hP : st.pendingRetryCleanup <;> simpa [contextHandler, hP] using h

/-- Witness for C9 at the ceiling state and a retryable failure. -/
theorem attempt_count_invariant_witness :
    (agentEnd stRetrying3 [msgAborted]).1.retryAttempt ≤ MAX_RETRIES ∧
    (turnEnd stRetrying3 msgNormal).1.retryAttempt ≤ MAX_RETRIES ∧
    (retryCommand stRetrying3 true).1.retryAttempt ≤ MAX_RETRIES ∧
    (onTerminalInput stRetrying3 true true "").1.retryAttempt ≤ MAX_RETRIES ∧
    (contextHandler stRetrying3 []).1.retryAttempt ≤ MAX_RETRIES ∧
    (stRetrying3.retryAttempt = MAX_RETRIES →
      (agentEnd stRetrying3 [msgAborted]).1.retryAttempt = 0 ∨
      (agentEnd stRetrying3 [msgAborted]).1.retryAttempt
          = stRetrying3.retryAttempt) :=
  attempt_count_invariant stRetrying3 (by decide) [msgAborted] [] msgNormal
    true true true ""

/-- C10: frame of the manual retry paths — the /retry command and the
empty-Enter interceptor leave retryAttempt, lastErrorMessage, lastStopReason
and lastResponseWasError unchanged in every case; when they send the trigger
the only mutation is the pending-cleanup flag becoming true, and when they do
not, the state is exactly unchanged. -/
theorem manual_paths_frame (st : RetryState) (bIdle bKey bIdle2 : Bool)
    (text : String) :
    (retryCommand st bIdle).1.retryAttempt = st.retryAttempt ∧
    (retryCommand st bIdle).1.lastErrorMessage = st.lastErrorMessage ∧
    (retryCommand st bIdle).1.lastStopReason = st.lastStopReason ∧
    (retryCommand st bIdle).1.lastResponseWasError = st.lastResponseWasError ∧
    (onTerminalInput st bKey bIdle2 text).1.retryAttempt = st.retryAttempt ∧
    (onTerminalInput st bKey bIdle2 text).1.lastErrorMessage
        = st.lastErrorMessage ∧
    (onTerminalInput st bKey bIdle2 text).1.lastStopReason = st.lastStopReason ∧
    (onTerminalInput st bKey bIdle2 text).1.lastResponseWasError
        = st.lastResponseWasError ∧
    ((retryCommand st bIdle).2.triggerSent = true →
      (retryCommand st bIdle).1 = { st with pendingRetryCleanup := true }) ∧
    ((retryCommand st bIdle).2.triggerSent = false →
      (retryCommand st bIdle).1 = st) ∧
    ((onTerminalInput st bKey bIdle2 text).2.1.triggerSent = true →
      (onTerminalInput st bKey bIdle2 text).1
          = { st with pendingRetryCleanup := true }) ∧
    ((onTerminalInput st bKey bIdle2 text).2.1.triggerSent = false →
      (onTerminalInput st bKey bIdle2 text).1 = st) := by
  cases bIdle <;> cases bKey <;> cases bIdle2 <;>
    cases hE : st.lastResponseWasError <;>
    by_cases ht : trimChars text.data = [] <;>
    simp [retryCommand, onTerminalInput, hE, ht, HandlerOut.empty]

/-- Witness for C10: a successful manual /retry mutates only the
pending-cleanup flag. -/
theorem manual_paths_frame_witness :
    (retryCommand stFailed true).1 = { stFailed with pendingRetryCleanup := true } :=
  (manual_paths_frame stFailed true true true "").2.2.2.2.2.2.2.2.1 (by decide)

end PiRetry
